import Mathlib

/-!
Verification of the blake2_check repository: a directory scanner that
computes BLAKE2b-512 checksums of files matching an extension filter.

The development embeds the final source variant
(`blake2b_isos/blake2b_1.py`) shallowly:

* File bytes are `List Nat` (each entry < 256); files are `Entry`
  records carrying name, path, regular-file flag, content, and an
  optional I/O failure (the `OSError` the `try` block of
  `calculate_blake2b` would catch on open/read).
* `hashlib.blake2b` is the unkeyed BLAKE2b-512 function of RFC 7693,
  implemented here over `Nat` with explicit reduction mod `2 ^ 64`
  (`blake2bHex`); its incremental `update` is byte accumulation
  (`hashlibUpdate`), which is how the streaming interface is specified.
* The chunked read loop `f.read(chunk_size)` until an empty read is
  `readChunks`; Python's `f.read(0)` returns `b""` at once, so a chunk
  size of zero terminates the loop immediately.
* Log lines the claims speak about are modelled structurally: the
  per-file success line and the per-file read-error line are
  `ReportLine`s, the invalid-directory error and the empty-directory
  warning are `Option String` fields of `ScanOutput`, and the final
  summary is an optional `succeeded/total` pair.  The thread pool of
  `check_blake2_sums` is modelled by a sequential map over the selected
  files: every claim below is about the multiset of per-file results and
  the counters, which do not depend on completion order.
* `main` parses arguments, calls `check_blake2_sums`, and never calls
  `sys.exit`; since `check_blake2_sums` returns normally in every
  branch, the interpreter's exit status is 0.  `run_main` pairs the scan
  output with that exit code.
-/

set_option maxRecDepth 10000

/-- Rotate a 64-bit word (a `Nat` below `2 ^ 64`) right by `n` bits. -/
def rotr64 (x n : Nat) : Nat := x / 2 ^ n + x % 2 ^ n * 2 ^ (64 - n)

/-- Initialization vector of BLAKE2b (RFC 7693, section 2.6). -/
def blakeIV : List Nat :=
  [0x6a09e667f3bcc908, 0xbb67ae8584caa73b, 0x3c6ef372fe94f82b, 0xa54ff53a5f1d36f1,
   0x510e527fade682d1, 0x9b05688c2b3e6c1f, 0x1f83d9abfb41bd6b, 0x5be0cd19137e2179]

/-- Message schedule permutations of BLAKE2 (RFC 7693, section 2.7). -/
def sigmaTable : List (List Nat) :=
  [[0, 1, 2, 3, 4, 5, 6, 7, 8, 9, 10, 11, 12, 13, 14, 15],
   [14, 10, 4, 8, 9, 15, 13, 6, 1, 12, 0, 2, 11, 7, 5, 3],
   [11, 8, 12, 0, 5, 2, 15, 13, 10, 14, 3, 6, 7, 1, 9, 4],
   [7, 9, 3, 1, 13, 12, 11, 14, 2, 6, 5, 10, 4, 0, 15, 8],
   [9, 0, 5, 7, 2, 4, 10, 15, 14, 1, 11, 12, 6, 8, 3, 13],
   [2, 12, 6, 10, 0, 11, 8, 3, 4, 13, 7, 5, 15, 14, 1, 9],
   [12, 5, 1, 15, 14, 13, 4, 10, 0, 7, 6, 3, 9, 2, 8, 11],
   [13, 11, 7, 14, 12, 1, 3, 9, 5, 0, 15, 4, 8, 6, 2, 10],
   [6, 15, 14, 9, 11, 3, 0, 8, 12, 2, 13, 7, 1, 4, 10, 5],
   [10, 2, 8, 4, 7, 6, 1, 5, 15, 11, 9, 14, 3, 12, 13, 0]]

/-- Mixing function G of BLAKE2b (RFC 7693, section 3.1): rotation
constants 32, 24, 16, 63, addition mod `2 ^ 64`. -/
def gMix (v : List Nat) (a b c d : Nat) (x y : Nat) : List Nat :=
  let va := (v.getD a 0 + v.getD b 0 + x) % 2 ^ 64
  let vd := rotr64 (Nat.xor (v.getD d 0) va) 32
  let vc := (v.getD c 0 + vd) % 2 ^ 64
  let vb := rotr64 (Nat.xor (v.getD b 0) vc) 24
  let va2 := (va + vb + y) % 2 ^ 64
  let vd2 := rotr64 (Nat.xor vd va2) 16
  let vc2 := (vc + vd2) % 2 ^ 64
  let vb2 := rotr64 (Nat.xor vb vc2) 63
  (((v.set a va2).set b vb2).set c vc2).set d vd2

/-- One round of the BLAKE2b compression function: the four column
steps followed by the four diagonal steps, with message words selected
by row `r % 10` of the schedule. -/
def blakeRound (m v : List Nat) (r : Nat) : List Nat :=
  let s := sigmaTable.getD (r % 10) []
  let mi := fun i => m.getD (s.getD i 0) 0
  let v1 := gMix v 0 4 8 12 (mi 0) (mi 1)
  let v2 := gMix v1 1 5 9 13 (mi 2) (mi 3)
  let v3 := gMix v2 2 6 10 14 (mi 4) (mi 5)
  let v4 := gMix v3 3 7 11 15 (mi 6) (mi 7)
  let v5 := gMix v4 0 5 10 15 (mi 8) (mi 9)
  let v6 := gMix v5 1 6 11 12 (mi 10) (mi 11)
  let v7 := gMix v6 2 7 8 13 (mi 12) (mi 13)
  gMix v7 3 4 9 14 (mi 14) (mi 15)

/-- Compression function F of BLAKE2b (RFC 7693, section 3.2): 12
rounds over the state `h ++ IV` with the byte counter `t` folded into
words 12 and 13 and the finalization flag inverting word 14. -/
def blakeCompress (h m : List Nat) (t : Nat) (last : Bool) : List Nat :=
  let v := h ++ blakeIV
  let v := v.set 12 (Nat.xor (v.getD 12 0) (t % 2 ^ 64))
  let v := v.set 13 (Nat.xor (v.getD 13 0) (t / 2 ^ 64 % 2 ^ 64))
  let v := if last then v.set 14 (Nat.xor (v.getD 14 0) (2 ^ 64 - 1)) else v
  let v := (List.range 12).foldl (fun acc r => blakeRound m acc r) v
  (List.range 8).map (fun i => Nat.xor (Nat.xor (h.getD i 0) (v.getD i 0)) (v.getD (i + 8) 0))

/-- Little-endian decoding of up to eight bytes into one 64-bit word. -/
def bytesToWord (bs : List Nat) : Nat := bs.foldr (fun b acc => b + 256 * acc) 0

/-- Split a message block of at most 128 bytes, zero-padded to 128,
into its sixteen little-endian 64-bit words. -/
def blockWords (b : List Nat) : List Nat :=
  let padded := b ++ List.replicate (128 - b.length) 0
  (List.range 16).map (fun i => bytesToWord ((padded.drop (8 * i)).take 8))

/-- Initial state of unkeyed BLAKE2b-512: the IV with the parameter
block word `0x01010040` (digest length 64, fanout 1, depth 1) folded
into the first word. -/
def blake2bInit : List Nat :=
  blakeIV.set 0 (Nat.xor (blakeIV.getD 0 0) 0x01010040)

/-- Sequential BLAKE2b block loop: every block but the last is
compressed with the running byte counter; the last (possibly empty,
possibly short) block is zero-padded and compressed with the total
length and the finalization flag.  The fuel argument only bounds the
recursion; `blake2bBytes` supplies enough for the whole message. -/
def blake2bAux : Nat → List Nat → List Nat → Nat → List Nat
  | 0, h, _, _ => h
  | fuel + 1, h, rest, done =>
    if rest.length ≤ 128 then
      blakeCompress h (blockWords rest) (done + rest.length) true
    else
      blake2bAux fuel (blakeCompress h (blockWords (rest.take 128)) (done + 128) false)
        (rest.drop 128) (done + 128)

/-- Little-endian encoding of one 64-bit word as eight bytes. -/
def wordLEBytes (w : Nat) : List Nat := (List.range 8).map (fun i => w / 256 ^ i % 256)

/-- Unkeyed BLAKE2b-512 digest of a byte sequence, as 64 bytes. -/
def blake2bBytes (msg : List Nat) : List Nat :=
  ((blake2bAux (msg.length / 128 + 1) blake2bInit msg 0).map wordLEBytes).flatten

/-- Lowercase hexadecimal digit for a value below 16. -/
def hexDigit (n : Nat) : Char := if n < 10 then Char.ofNat (48 + n) else Char.ofNat (87 + n)

/-- Two lowercase hexadecimal digits of one byte. -/
def byteToHex (b : Nat) : List Char := [hexDigit (b / 16), hexDigit (b % 16)]

/-- Lowercase hexadecimal rendering of a byte sequence. -/
def bytesToHex (bs : List Nat) : String := String.mk ((bs.map byteToHex).flatten)

/-- Hex-encoded unkeyed BLAKE2b-512 digest of a byte sequence: the
value of `hashlib.blake2b(msg).hexdigest()` that the source's hashing
loop produces once all bytes have been fed to `update`. -/
def blake2bHex (msg : List Nat) : String := bytesToHex (blake2bBytes msg)

/-- Value of `io.DEFAULT_BUFFER_SIZE` on CPython, the default
`chunk_size` of `calculate_blake2b`. -/
def DEFAULT_BUFFER_SIZE : Nat := 8192

/-- Incremental `update` of a `hashlib` object, modelled on the byte
level: the accumulated input grows by the chunk, and `hexdigest` is the
hash of the accumulated input. -/
def hashlibUpdate (state chunk : List Nat) : List Nat := state ++ chunk

/-- Chunked read loop of `calculate_blake2b`: `f.read(chunk_size)`
until the read comes back empty.  `f.read(0)` is empty at once, so
chunk size 0 produces no chunks; the fuel is only a recursion bound,
and `readChunks` supplies enough for the whole content. -/
def readChunksAux : Nat → List Nat → Nat → List (List Nat)
  | 0, _, _ => []
  | fuel + 1, content, chunkSize =>
    let chunk := content.take chunkSize
    if chunk.isEmpty then []
    else chunk :: readChunksAux fuel (content.drop chunkSize) chunkSize

/-- Chunks the read loop of `calculate_blake2b` obtains from a file
with the given content, in order. -/
def readChunks (content : List Nat) (chunkSize : Nat) : List (List Nat) :=
  readChunksAux (content.length + 1) content chunkSize

/-- Directory entry as `pathlib.Path.iterdir` yields it: base name,
full path, whether it is a regular file, its byte content, and the
`OSError` message (if any) that opening or reading it raises. -/
structure Entry where
  name : String
  path : String
  isFile : Bool
  content : List Nat
  ioError : Option String
deriving DecidableEq

/-- Scan target: the path given on the command line, whether it
resolves to an existing directory, and its immediate children. -/
structure Directory where
  path : String
  isDir : Bool
  entries : List Entry
deriving DecidableEq

/-- Per-file output line: the success line
`f"{file.name:40} BLAKE2b: {hash}"` of `process_file`, or the
read-error line `f" Error reading file {file_path}: {e}"` that the
`except` branch of `calculate_blake2b` logs. -/
inductive ReportLine where
  | success (name digest : String)
  | failure (path cause : String)
deriving DecidableEq

/-- Right-pad a string with spaces to a minimum width, as Python's
format specifier `:40` does for strings. -/
def padRight (s : String) (n : Nat) : String :=
  s ++ String.mk (List.replicate (n - s.length) ' ')

/-- Single-quote character, used by the logged messages. -/
def pyQuote (s : String) : String :=
  String.mk (Char.ofNat 39 :: (s.toList ++ [Char.ofNat 39]))

/-- Rendered text of a report line, matching the f-strings of
`process_file` and of the `except` branch of `calculate_blake2b`. -/
def reportText : ReportLine → String
  | .success name digest => padRight name 40 ++ " BLAKE2b: " ++ digest
  | .failure path cause => " Error reading file " ++ path ++ ": " ++ cause

/-- Python truthiness of an `Optional[str]`: `None` and the empty
string are falsy, every other string is truthy. -/
def pyTruthy : Option String → Bool
  | none => false
  | some s => !(s == "")

/-- Index of the last occurrence of a character in a list, as Python's
`str.rfind` computes it (`none` standing for `-1`). -/
def rfindIdx (cs : List Char) (c : Char) : Option Nat :=
  match cs with
  | [] => none
  | a :: rest =>
    match rfindIdx rest c with
    | some i => some (i + 1)
    | none => if a = c then some 0 else none

/-- Embedding of `pathlib.PurePath.suffix`: with `i = name.rfind(".")`,
the result is `name[i:]` when `0 < i < len(name) - 1` and the empty
string otherwise (so dotless names, leading-dot names, and names ending
in a dot have no suffix). -/
def pySuffix (name : String) : String :=
  match rfindIdx name.toList '.' with
  | none => ""
  | some i =>
    if 0 < i && i < name.toList.length - 1 then String.mk (name.toList.drop i) else ""

/-- Embedding of `str.lower` on the ASCII range the file extensions
live in: each character is lowercased. -/
def pyLower (s : String) : String := String.mk (s.toList.map Char.toLower)

/-- Embedding of `calculate_blake2b(file_path, chunk_size)` from
`blake2b_isos/blake2b_1.py` (the `verbose` flag only drives the
progress bar and logging level, not the result): on success the chunks
read from the file are folded into the hash state and the hex digest is
returned with no report line; on an open/read `OSError` the `except`
branch returns `None` after logging the error line naming the path and
the cause. -/
def calculate_blake2b (file : Entry) (chunk_size : Nat) : Option String × List ReportLine :=
  match file.ioError with
  | some cause => (none, [ReportLine.failure file.path cause])
  | none =>
    let chunks := readChunks file.content chunk_size
    let state := chunks.foldl hashlibUpdate []
    (some (blake2bHex state), [])

/-- Embedding of `process_file(file, verbose, chunk_size)`: hash the
file and, when the returned digest is truthy, log the success line. -/
def process_file (file : Entry) (chunk_size : Nat) : Option String × List ReportLine :=
  match calculate_blake2b file chunk_size with
  | (some d, lines) =>
    if d == "" then (some d, lines)
    else (some d, lines ++ [ReportLine.success file.name d])
  | (none, lines) => (none, lines)

/-- File selection of `check_blake2_sums`: the comprehension
`[f for f in dir_path.iterdir() if f.is_file() and f.suffix.lower() == ext]`. -/
def selectFiles (entries : List Entry) (ext : String) : List Entry :=
  entries.filter (fun f => f.isFile && (pyLower (pySuffix f.name) == ext))

/-- Modelled from the spec: the case-insensitive extension match the
FileEnumerator section describes, "compares extension case-insensitively
against the configured target".  Used only to compare the spec's
selection rule with the source's `selectFiles`. -/
def specMatches (name target : String) : Bool :=
  pyLower (pySuffix name) == pyLower target

/-- Per-file results `check_blake2_sums` collects from its futures, one
per selected file.  The thread pool delivers them in completion order;
the claims below are order-independent, so the embedding maps
sequentially. -/
def scanResults (d : Directory) (ext : String) (chunk_size : Nat) :
    List (Option String × List ReportLine) :=
  (selectFiles d.entries ext).map (fun f => process_file f chunk_size)

/-- Observable output of one `check_blake2_sums` run: the
invalid-directory error message, the no-matching-files warning, the
per-file report lines, and the final `succeeded/total` summary (absent
on the two early returns). -/
structure ScanOutput where
  dirError : Option String
  emptyWarning : Option String
  reports : List ReportLine
  summary : Option (Nat × Nat)
deriving DecidableEq

/-- Embedding of `check_blake2_sums(directory, ext, chunk_size)` from
`blake2b_isos/blake2b_1.py`: an invalid directory logs an error and
returns; an empty selection logs a warning and returns; otherwise every
selected file is processed, truthy results are counted, and the summary
line reports `success_count/len(files)`. -/
def check_blake2_sums (d : Directory) (ext : String) (chunk_size : Nat) : ScanOutput :=
  if d.isDir = false then
    { dirError := some ("The specified path " ++ pyQuote d.path ++ " is not a valid directory."),
      emptyWarning := none, reports := [], summary := none }
  else
    let files := selectFiles d.entries ext
    if files.isEmpty then
      { dirError := none,
        emptyWarning := some ("No files with extension " ++ pyQuote ext ++ " found in " ++ d.path ++ "."),
        reports := [], summary := none }
    else
      let results := scanResults d ext chunk_size
      let success_count := (results.filter (fun r => pyTruthy r.1)).length
      { dirError := none, emptyWarning := none,
        reports := (results.map Prod.snd).flatten,
        summary := some (success_count, files.length) }

/-- Embedding of running the script: `main` parses arguments, calls
`check_blake2_sums` (which returns normally in every branch), and never
calls `sys.exit`, so the interpreter's exit status is 0. -/
def run_main (d : Directory) (ext : String) (chunk_size : Nat) : ScanOutput × Nat :=
  (check_blake2_sums d ext chunk_size, 0)

/-- Report line carrying a digest, as opposed to a read-error line. -/
def isSuccessLine : ReportLine → Bool
  | .success _ _ => true
  | .failure _ _ => false

/-- Sample readable `.iso` file with content "hi". -/
def entryGood : Entry := ⟨"a.iso", "d/a.iso", true, [104, 105], none⟩

/-- Sample `.iso` file whose open raises an `OSError`. -/
def entryBad : Entry := ⟨"b.iso", "d/b.iso", true, [1, 2, 3], some "Permission denied"⟩

/-- Sample regular file whose extension does not match `.iso`. -/
def entryOther : Entry := ⟨"c.txt", "d/c.txt", true, [99], none⟩

/-- Sample valid directory holding the three sample entries. -/
def sampleDir : Directory := ⟨"d", true, [entryGood, entryBad, entryOther]⟩

set_option maxHeartbeats 2000000

lemma readChunksAux_flatten (n : Nat) (hn : 0 < n) :
    ∀ (fuel : Nat) (content : List Nat), content.length < fuel →
      (readChunksAux fuel content n).flatten = content := by
  intro fuel
  induction fuel with
  | zero => intro content h; exact absurd h (Nat.not_lt_zero _)
  | succ fuel ih =>
    intro content h
    cases content with
    | nil => simp [readChunksAux]
    | cons a rest =>
      have htake : ((a :: rest).take n).isEmpty = false := by
        cases n with
        | zero => exact absurd hn (Nat.lt_irrefl 0)
        | succ m => simp [List.take]
      have hdrop : ((a :: rest).drop n).length < fuel := by
        rw [List.length_drop]
        simp only [List.length_cons] at h ⊢
        omega
      simp [readChunksAux, htake, ih _ hdrop, List.take_append_drop]

lemma readChunks_flatten (content : List Nat) (n : Nat) (hn : 0 < n) :
    (readChunks content n).flatten = content :=
  readChunksAux_flatten n hn (content.length + 1) content (Nat.lt_succ_self _)

lemma readChunks_zero (content : List Nat) : readChunks content 0 = [] := by
  simp [readChunks, readChunksAux]

lemma foldl_hashlibUpdate (chunks : List (List Nat)) (init : List Nat) :
    chunks.foldl hashlibUpdate init = init ++ chunks.flatten := by
  induction chunks generalizing init with
  | nil => simp
  | cons c cs ih => simp [hashlibUpdate, ih]

lemma calculate_blake2b_ok (file : Entry) (c : Nat) (h : file.ioError = none) (hc : 0 < c) :
    calculate_blake2b file c = (some (blake2bHex file.content), []) := by
  unfold calculate_blake2b
  rw [h]
  simp [foldl_hashlibUpdate, readChunks_flatten file.content c hc]

lemma calculate_blake2b_zero (file : Entry) (h : file.ioError = none) :
    calculate_blake2b file 0 = (some (blake2bHex []), []) := by
  unfold calculate_blake2b
  rw [h]
  simp [readChunks_zero]

lemma blakeCompress_length (h m : List Nat) (t : Nat) (last : Bool) :
    (blakeCompress h m t last).length = 8 := by
  simp [blakeCompress]

lemma blake2bAux_length :
    ∀ (fuel : Nat) (h rest : List Nat) (done : Nat), h.length = 8 →
      (blake2bAux fuel h rest done).length = 8 := by
  intro fuel
  induction fuel with
  | zero => intro h rest done hh; exact hh
  | succ fuel ih =>
    intro h rest done hh
    unfold blake2bAux
    by_cases hr : rest.length ≤ 128
    · simp [hr, blakeCompress_length]
    · simp only [hr, if_neg, ite_false]
      exact ih _ _ _ (blakeCompress_length _ _ _ _)

lemma flatten_map_wordLEBytes_length (l : List Nat) :
    ((l.map wordLEBytes).flatten).length = 8 * l.length := by
  induction l with
  | nil => simp
  | cons a rest ih =>
    simp only [List.map_cons, List.flatten_cons, List.length_append, ih, List.length_cons]
    have : (wordLEBytes a).length = 8 := by simp [wordLEBytes]
    omega

lemma blake2bBytes_length (msg : List Nat) : (blake2bBytes msg).length = 64 := by
  unfold blake2bBytes
  rw [flatten_map_wordLEBytes_length, blake2bAux_length]
  · simp [blake2bInit, blakeIV]

lemma bytesToHex_data_length (bs : List Nat) : (bytesToHex bs).data.length = 2 * bs.length := by
  unfold bytesToHex
  induction bs with
  | nil => rfl
  | cons b rest ih =>
    simp only [List.map_cons, List.flatten_cons] at ih ⊢
    simp only [List.length_append, List.length_cons] at ih ⊢
    simp [byteToHex] at ih ⊢
    omega

lemma blake2bHex_ne_empty (msg : List Nat) : blake2bHex msg ≠ "" := by
  intro h
  have h1 : (blake2bHex msg).data.length = 128 := by
    unfold blake2bHex
    rw [bytesToHex_data_length, blake2bBytes_length]
  rw [h] at h1
  exact absurd h1 (by decide)

lemma blake2bHex_beq_empty_false (msg : List Nat) : (blake2bHex msg == "") = false := by
  exact beq_eq_false_iff_ne.mpr (blake2bHex_ne_empty msg)

lemma process_file_cases (f : Entry) (c : Nat) :
    (∃ d, process_file f c = (some d, [ReportLine.success f.name d]) ∧ (d == "") = false) ∨
    (∃ cause, process_file f c = (none, [ReportLine.failure f.path cause])) := by
  unfold process_file calculate_blake2b
  cases hio : f.ioError with
  | some cause => exact Or.inr ⟨cause, rfl⟩
  | none =>
    refine Or.inl ⟨blake2bHex ((readChunks f.content c).foldl hashlibUpdate []), ?_, ?_⟩
    · simp [blake2bHex_beq_empty_false]
    · exact blake2bHex_beq_empty_false _

lemma process_file_reports_length (f : Entry) (c : Nat) :
    (process_file f c).2.length = 1 := by
  rcases process_file_cases f c with ⟨d, hpf, _⟩ | ⟨cause, hpf⟩ <;> simp [hpf]

lemma results_counts (fs : List Entry) (c : Nat) :
    (((fs.map (fun f => process_file f c)).map Prod.snd).flatten).length = fs.length ∧
    ((fs.map (fun f => process_file f c)).filter (fun r => pyTruthy r.1)).length
      = ((((fs.map (fun f => process_file f c)).map Prod.snd).flatten).filter
          isSuccessLine).length := by
  induction fs with
  | nil => simp
  | cons f rest ih =>
    obtain ⟨ih1, ih2⟩ := ih
    rcases process_file_cases f c with ⟨d, hpf, hne⟩ | ⟨cause, hpf⟩
    · have hpt : pyTruthy (some d) = true := by simp [pyTruthy, hne]
      have hsl : isSuccessLine (ReportLine.success f.name d) = true := rfl
      constructor
      · simp [hpf]
        simp at ih1
        omega
      · simp [hpf, hpt, hsl]
        simp at ih1 ih2
        omega
    · have hpt : pyTruthy (none : Option String) = false := rfl
      have hfl : isSuccessLine (ReportLine.failure f.path cause) = false := rfl
      constructor
      · simp [hpf]
        simp at ih1
        omega
      · simp [hpf, hpt, hfl]
        simp at ih1 ih2
        omega

/-- Claim C1: for every readable file content, `calculate_blake2b` returns
the hex-encoded BLAKE2b-512 digest of that content exactly as the
reference algorithm defines it; the empty input yields the fixed known
empty-input digest, and the standard test vector "abc" yields its fixed
known hex string. -/
theorem calculate_blake2b_matches_reference (file : Entry) (h : file.ioError = none) :
    (calculate_blake2b file DEFAULT_BUFFER_SIZE).1 = some (blake2bHex file.content) ∧
    blake2bHex [] = "786a02f742015903c6c6fd852552d272912f4740e15847618a86e217f71f5419d25e1031afee585313896444934eb04b903a685b1448b755d56f701afe9be2ce" ∧
    blake2bHex [97, 98, 99] = "ba80a53f981c4d0d6a2797b69f12f6e94c212f14685ac4b74b12bb6fdbffa2d17d87c5392aab792dc252d5de4533cc9518d38aa8dbf1925ab92386edd4009923" := by
  refine ⟨?_, by rfl, by rfl⟩
  rw [calculate_blake2b_ok file DEFAULT_BUFFER_SIZE h (by decide)]

/-- Witness for C1 at a concrete file with content "abc". -/
theorem calculate_blake2b_matches_reference_witness :
    (calculate_blake2b ⟨"abc.iso", "d/abc.iso", true, [97, 98, 99], none⟩ DEFAULT_BUFFER_SIZE).1
      = some (blake2bHex [97, 98, 99]) ∧
    blake2bHex [] = "786a02f742015903c6c6fd852552d272912f4740e15847618a86e217f71f5419d25e1031afee585313896444934eb04b903a685b1448b755d56f701afe9be2ce" ∧
    blake2bHex [97, 98, 99] = "ba80a53f981c4d0d6a2797b69f12f6e94c212f14685ac4b74b12bb6fdbffa2d17d87c5392aab792dc252d5de4533cc9518d38aa8dbf1925ab92386edd4009923" :=
  calculate_blake2b_matches_reference ⟨"abc.iso", "d/abc.iso", true, [97, 98, 99], none⟩ rfl

/-- Claim C2: hashing the same readable content with any two positive
chunk sizes yields the same result (chunk-size independence). -/
theorem calculate_blake2b_chunk_size_independent (file : Entry) (c1 c2 : Nat)
    (h : file.ioError = none) (h1 : 0 < c1) (h2 : 0 < c2) :
    calculate_blake2b file c1 = calculate_blake2b file c2 := by
  rw [calculate_blake2b_ok file c1 h h1, calculate_blake2b_ok file c2 h h2]

/-- Witness for C2: one-byte chunks versus a chunk size exceeding the
file size agree on a concrete two-byte file. -/
theorem calculate_blake2b_chunk_size_independent_witness :
    calculate_blake2b ⟨"hi.iso", "d/hi.iso", true, [104, 105], none⟩ 1
      = calculate_blake2b ⟨"hi.iso", "d/hi.iso", true, [104, 105], none⟩ 8192 :=
  calculate_blake2b_chunk_size_independent ⟨"hi.iso", "d/hi.iso", true, [104, 105], none⟩
    1 8192 rfl (by decide) (by decide)

/-- Counterexample to C3: for the one-byte file "a" a chunk size of 0 is
not replaced by any default; the digest differs from the default-chunk
digest, so no fallback to a platform-default buffer size happens. -/
theorem chunk_size_zero_no_fallback_cex :
    (calculate_blake2b ⟨"a.iso", "d/a.iso", true, [97], none⟩ 0).1
      ≠ (calculate_blake2b ⟨"a.iso", "d/a.iso", true, [97], none⟩ DEFAULT_BUFFER_SIZE).1 := by
  decide

/-- Claim C3 (amended): an unspecified chunk size means the Python
default argument `io.DEFAULT_BUFFER_SIZE`, and every positive chunk
size gives the same result as that default; an invalid chunk size is
not replaced by a default: with chunk size 0 the read loop terminates
at once and the digest is the empty-input digest. -/
theorem chunk_size_default_behavior (file : Entry) (c : Nat)
    (h : file.ioError = none) (hc : 0 < c) :
    calculate_blake2b file c = calculate_blake2b file DEFAULT_BUFFER_SIZE ∧
    (calculate_blake2b file 0).1 = some (blake2bHex []) := by
  constructor
  · rw [calculate_blake2b_ok file c h hc,
      calculate_blake2b_ok file DEFAULT_BUFFER_SIZE h (by decide)]
  · rw [calculate_blake2b_zero file h]

/-- Witness for C3 (amended) at a concrete three-byte file and chunk
size 3. -/
theorem chunk_size_default_behavior_witness :
    calculate_blake2b ⟨"x.iso", "d/x.iso", true, [1, 2, 3], none⟩ 3
      = calculate_blake2b ⟨"x.iso", "d/x.iso", true, [1, 2, 3], none⟩ DEFAULT_BUFFER_SIZE ∧
    (calculate_blake2b ⟨"x.iso", "d/x.iso", true, [1, 2, 3], none⟩ 0).1
      = some (blake2bHex []) :=
  chunk_size_default_behavior ⟨"x.iso", "d/x.iso", true, [1, 2, 3], none⟩ 3 rfl (by decide)

/-- Claim C4: an open/read failure makes `calculate_blake2b` return no
digest together with the single error line naming the path and the
cause; `process_file` adds no further line, and the rendered error text
names the path and the underlying cause.  The failure is data, not an
exception: both functions return normally. -/
theorem io_error_contained (file : Entry) (cause : String) (c : Nat)
    (h : file.ioError = some cause) :
    calculate_blake2b file c = (none, [ReportLine.failure file.path cause]) ∧
    process_file file c = (none, [ReportLine.failure file.path cause]) ∧
    reportText (ReportLine.failure file.path cause)
      = " Error reading file " ++ file.path ++ ": " ++ cause := by
  have h1 : calculate_blake2b file c = (none, [ReportLine.failure file.path cause]) := by
    unfold calculate_blake2b
    rw [h]
  exact ⟨h1, by unfold process_file; rw [h1], rfl⟩

/-- Witness for C4 at a concrete unreadable file. -/
theorem io_error_contained_witness :
    calculate_blake2b entryBad 8192 = (none, [ReportLine.failure "d/b.iso" "Permission denied"]) ∧
    process_file entryBad 8192 = (none, [ReportLine.failure "d/b.iso" "Permission denied"]) ∧
    reportText (ReportLine.failure "d/b.iso" "Permission denied")
      = " Error reading file " ++ "d/b.iso" ++ ": " ++ "Permission denied" :=
  io_error_contained entryBad "Permission denied" 8192 rfl

/-- Claim C10: with `chunk_size = 0` the first `f.read(0)` returns the
empty chunk, the loop ends before any byte reaches the hash state, and
every readable file hashes to the fixed BLAKE2b-512 empty-input digest
regardless of its content. -/
theorem chunk_size_zero_empty_digest (file : Entry) (h : file.ioError = none) :
    calculate_blake2b file 0
      = (some "786a02f742015903c6c6fd852552d272912f4740e15847618a86e217f71f5419d25e1031afee585313896444934eb04b903a685b1448b755d56f701afe9be2ce", []) := by
  rw [calculate_blake2b_zero file h]
  rfl

/-- Witness for C10 at a concrete file with nonempty content. -/
theorem chunk_size_zero_empty_digest_witness :
    calculate_blake2b ⟨"big.iso", "d/big.iso", true, [5, 6, 7, 8], none⟩ 0
      = (some "786a02f742015903c6c6fd852552d272912f4740e15847618a86e217f71f5419d25e1031afee585313896444934eb04b903a685b1448b755d56f701afe9be2ce", []) :=
  chunk_size_zero_empty_digest ⟨"big.iso", "d/big.iso", true, [5, 6, 7, 8], none⟩ rfl

/-- Counterexample to C5: for the concrete invalid directory "missing"
the error is reported and no per-file lines are emitted, but the
process exit code is 0, not the non-zero code the claim requires. -/
theorem invalid_directory_exit_code_cex :
    (check_blake2_sums ⟨"missing", false, []⟩ ".iso" 8192).dirError.isSome = true ∧
    (check_blake2_sums ⟨"missing", false, []⟩ ".iso" 8192).reports = [] ∧
    (run_main ⟨"missing", false, []⟩ ".iso" 8192).2 = 0 := by
  decide

/-- Claim C5 (amended): an invalid directory makes the scan log the
error naming the path (not silently swallowed), emit no per-file report
line and no summary; the process exit code, however, is 0 for invalid
directories just as for valid ones, since `main` never calls
`sys.exit`. -/
theorem invalid_directory_behavior (d : Directory) (ext : String) (c : Nat)
    (h : d.isDir = false) :
    (check_blake2_sums d ext c).dirError
      = some ("The specified path " ++ pyQuote d.path ++ " is not a valid directory.") ∧
    (check_blake2_sums d ext c).reports = [] ∧
    (check_blake2_sums d ext c).summary = none ∧
    (run_main d ext c).2 = 0 ∧
    (∀ d2 : Directory, (run_main d2 ext c).2 = 0) := by
  unfold run_main check_blake2_sums
  rw [h]
  exact ⟨rfl, rfl, rfl, rfl, fun d2 => rfl⟩

/-- Witness for C5 (amended) at a concrete invalid directory. -/
theorem invalid_directory_behavior_witness :
    (check_blake2_sums ⟨"nope", false, []⟩ ".iso" 4).dirError
      = some ("The specified path " ++ pyQuote "nope" ++ " is not a valid directory.") ∧
    (check_blake2_sums ⟨"nope", false, []⟩ ".iso" 4).reports = [] ∧
    (check_blake2_sums ⟨"nope", false, []⟩ ".iso" 4).summary = none ∧
    (run_main ⟨"nope", false, []⟩ ".iso" 4).2 = 0 ∧
    (∀ d2 : Directory, (run_main d2 ".iso" 4).2 = 0) :=
  invalid_directory_behavior ⟨"nope", false, []⟩ ".iso" 4 rfl

/-- Counterexample to C6: the regular file "a.iso" matches the target
".ISO" case-insensitively, yet the enumeration selects nothing, because
the source lowercases only the file suffix and compares it to the
target as written. -/
theorem extension_target_case_cex :
    specMatches "a.iso" ".ISO" = true ∧
    (⟨"a.iso", "d/a.iso", true, [], none⟩ : Entry).isFile = true ∧
    selectFiles [⟨"a.iso", "d/a.iso", true, [], none⟩] ".ISO" = [] := by
  decide

/-- Claim C6 (amended): when the configured target is lowercase (as the
default ".iso" is), the enumeration selects exactly the regular files
whose extension matches the target case-insensitively, for every casing
of the file names; for a non-lowercase target the comparison is exact
against the lowercased suffix, not case-insensitive. -/
theorem selectFiles_case_insensitive_in_names (entries : List Entry) (ext : String)
    (h : pyLower ext = ext) :
    selectFiles entries ext
      = entries.filter (fun f => f.isFile && specMatches f.name ext) := by
  unfold selectFiles specMatches
  rw [h]

/-- Witness for C6 (amended): mixed-case file names against the
lowercase default target. -/
theorem selectFiles_case_insensitive_in_names_witness :
    pyLower ".iso" = ".iso" ∧
    selectFiles [⟨"A.ISO", "d/A.ISO", true, [], none⟩, ⟨"b.IsO", "d/b.IsO", true, [], none⟩,
        ⟨"c.txt", "d/c.txt", true, [], none⟩, ⟨"sub.iso", "d/sub.iso", false, [], none⟩] ".iso"
      = List.filter (fun f => f.isFile && specMatches f.name ".iso")
          [⟨"A.ISO", "d/A.ISO", true, [], none⟩, ⟨"b.IsO", "d/b.IsO", true, [], none⟩,
           ⟨"c.txt", "d/c.txt", true, [], none⟩, ⟨"sub.iso", "d/sub.iso", false, [], none⟩] :=
  ⟨by decide,
   selectFiles_case_insensitive_in_names
     [⟨"A.ISO", "d/A.ISO", true, [], none⟩, ⟨"b.IsO", "d/b.IsO", true, [], none⟩,
      ⟨"c.txt", "d/c.txt", true, [], none⟩, ⟨"sub.iso", "d/sub.iso", false, [], none⟩]
     ".iso" (by decide)⟩

lemma check_blake2_sums_run (d : Directory) (ext : String) (c : Nat)
    (hd : d.isDir = true) (hfe : (selectFiles d.entries ext).isEmpty = false) :
    check_blake2_sums d ext c =
      { dirError := none, emptyWarning := none,
        reports := ((scanResults d ext c).map Prod.snd).flatten,
        summary := some (((scanResults d ext c).filter (fun r => pyTruthy r.1)).length,
                         (selectFiles d.entries ext).length) } := by
  unfold check_blake2_sums
  simp only [hd, hfe, Bool.true_eq_false, Bool.false_eq_true, if_false]

/-- Claim C7: in a scan that reaches processing, every selected file
yields exactly one report line (a success line with the digest or a
failure line with the reason), and the summary reports the number of
success lines out of the number of selected files. -/
theorem check_one_report_per_file (d : Directory) (ext : String) (c : Nat)
    (hd : d.isDir = true) (hne : selectFiles d.entries ext ≠ []) :
    (check_blake2_sums d ext c).reports.length = (selectFiles d.entries ext).length ∧
    (check_blake2_sums d ext c).summary
      = some (((check_blake2_sums d ext c).reports.filter isSuccessLine).length,
              (selectFiles d.entries ext).length) := by
  have hfe : (selectFiles d.entries ext).isEmpty = false := by
    cases hl : selectFiles d.entries ext with
    | nil => exact absurd hl hne
    | cons a l => rfl
  have hc := results_counts (selectFiles d.entries ext) c
  rw [check_blake2_sums_run d ext c hd hfe]
  simp only [scanResults]
  exact ⟨hc.1, by rw [hc.2]⟩

/-- Witness for C7 on the sample directory: one readable `.iso`, one
unreadable `.iso`, one `.txt`. -/
theorem check_one_report_per_file_witness :
    (check_blake2_sums sampleDir ".iso" 4).reports.length
      = (selectFiles sampleDir.entries ".iso").length ∧
    (check_blake2_sums sampleDir ".iso" 4).summary
      = some (((check_blake2_sums sampleDir ".iso" 4).reports.filter isSuccessLine).length,
              (selectFiles sampleDir.entries ".iso").length) :=
  check_one_report_per_file sampleDir ".iso" 4 rfl (by decide)

/-- Counterexample to C8: for a concrete valid directory with zero
matching files the scan warns and exits 0, but no `0/0` summary line is
emitted: the function returns before the summary. -/
theorem empty_scan_summary_cex :
    (check_blake2_sums ⟨"d", true, []⟩ ".iso" 8192).summary = none ∧
    (check_blake2_sums ⟨"d", true, []⟩ ".iso" 8192).emptyWarning.isSome = true ∧
    (run_main ⟨"d", true, []⟩ ".iso" 8192).2 = 0 := by
  decide

/-- Claim C8 (amended): a valid directory with zero matching files is
not an error: the scan logs the warning naming the extension and the
directory, emits no report line and no summary line at all (in
particular no `0/0` summary), and the process exits 0. -/
theorem empty_result_set_behavior (d : Directory) (ext : String) (c : Nat)
    (hd : d.isDir = true) (he : selectFiles d.entries ext = []) :
    (check_blake2_sums d ext c).emptyWarning
      = some ("No files with extension " ++ pyQuote ext ++ " found in " ++ d.path ++ ".") ∧
    (check_blake2_sums d ext c).dirError = none ∧
    (check_blake2_sums d ext c).reports = [] ∧
    (check_blake2_sums d ext c).summary = none ∧
    (run_main d ext c).2 = 0 := by
  simp [check_blake2_sums, run_main, hd, he]

/-- Witness for C8 (amended) on a valid directory holding only a
non-matching file. -/
theorem empty_result_set_behavior_witness :
    (check_blake2_sums ⟨"d", true, [entryOther]⟩ ".iso" 8192).emptyWarning
      = some ("No files with extension " ++ pyQuote ".iso" ++ " found in " ++ "d" ++ ".") ∧
    (check_blake2_sums ⟨"d", true, [entryOther]⟩ ".iso" 8192).dirError = none ∧
    (check_blake2_sums ⟨"d", true, [entryOther]⟩ ".iso" 8192).reports = [] ∧
    (check_blake2_sums ⟨"d", true, [entryOther]⟩ ".iso" 8192).summary = none ∧
    (run_main ⟨"d", true, [entryOther]⟩ ".iso" 8192).2 = 0 :=
  empty_result_set_behavior ⟨"d", true, [entryOther]⟩ ".iso" 8192 rfl (by decide)

/-- Claim C9: one result is produced per selected file (none dropped),
the success count over any prefix of the results never exceeds the
total number of selected files, and any emitted summary satisfies
`succeeded <= total` with `total` the number of selected files. -/
theorem scan_result_invariants (d : Directory) (ext : String) (c : Nat) :
    (scanResults d ext c).length = (selectFiles d.entries ext).length ∧
    (∀ k, (((scanResults d ext c).take k).filter (fun r => pyTruthy r.1)).length
        ≤ (selectFiles d.entries ext).length) ∧
    (∀ s t, (check_blake2_sums d ext c).summary = some (s, t) →
      s ≤ t ∧ t = (selectFiles d.entries ext).length) := by
  have hlen : (scanResults d ext c).length = (selectFiles d.entries ext).length := by
    simp [scanResults]
  refine ⟨hlen, ?_, ?_⟩
  · intro k
    calc (((scanResults d ext c).take k).filter (fun r => pyTruthy r.1)).length
        ≤ ((scanResults d ext c).take k).length := List.length_filter_le _ _
      _ ≤ (scanResults d ext c).length := by
          rw [List.length_take]
          exact Nat.min_le_right _ _
      _ = _ := hlen
  · intro s t hsum
    by_cases hd : d.isDir = false
    · simp [check_blake2_sums, hd] at hsum
    · by_cases hfe : (selectFiles d.entries ext).isEmpty
      · simp [check_blake2_sums, hd, hfe] at hsum
      · have hd2 : d.isDir = true := by revert hd; cases d.isDir <;> simp
        have hfe2 : (selectFiles d.entries ext).isEmpty = false := by
          revert hfe; cases (selectFiles d.entries ext).isEmpty <;> simp
        rw [check_blake2_sums_run d ext c hd2 hfe2] at hsum
        simp only [Option.some.injEq, Prod.mk.injEq] at hsum
        obtain ⟨hs, ht⟩ := hsum
        constructor
        · rw [← hs, ← ht]
          calc ((scanResults d ext c).filter (fun r => pyTruthy r.1)).length
              ≤ (scanResults d ext c).length := List.length_filter_le _ _
            _ = (selectFiles d.entries ext).length := hlen
        · exact ht.symm

/-- Witness for C9 on the sample directory at chunk size 2: two tasks,
two results, summary `1/2`. -/
theorem scan_result_invariants_witness :
    (scanResults sampleDir ".iso" 2).length = (selectFiles sampleDir.entries ".iso").length ∧
    (((scanResults sampleDir ".iso" 2).take 1).filter (fun r => pyTruthy r.1)).length
      ≤ (selectFiles sampleDir.entries ".iso").length ∧
    (1 ≤ 2 ∧ 2 = (selectFiles sampleDir.entries ".iso").length) :=
  ⟨(scan_result_invariants sampleDir ".iso" 2).1,
   (scan_result_invariants sampleDir ".iso" 2).2.1 1,
   (scan_result_invariants sampleDir ".iso" 2).2.2 1 2 (by decide)⟩
